import Mathlib

/-!
Shallow embedding of `src/lib.rs` of the `tagged-base64` crate.

Rust strings are modelled as `List Char` (a Rust `String` is a sequence of
Unicode scalar values; its `.bytes()` iterator yields the UTF-8 encoding,
modelled by `utf8Encode`).  Bytes are `Nat` values kept below 256 by
construction.  Fallible Rust functions returning `Result` are modelled with
`Except`; a Rust panic (an `assert!` failure or an out-of-bounds index) is
modelled as an explicit outcome distinct from the `Err` returns.
-/

deriving instance DecidableEq for Except

/-- UTF-8 encoding of a single Unicode scalar value, as byte values
(arithmetic form of the usual bit operations). -/
def utf8EncodeChar (c : Char) : List Nat :=
  let n := c.toNat
  if n < 0x80 then [n]
  else if n < 0x800 then [0xC0 + n / 64, 0x80 + n % 64]
  else if n < 0x10000 then [0xE0 + n / 4096, 0x80 + (n / 64) % 64, 0x80 + n % 64]
  else [0xF0 + n / 262144, 0x80 + (n / 4096) % 64, 0x80 + (n / 64) % 64, 0x80 + n % 64]

/-- The UTF-8 byte sequence of a string, i.e. Rust's `str::bytes()`. -/
def utf8Encode : List Char → List Nat
  | [] => []
  | c :: cs => utf8EncodeChar c ++ utf8Encode cs

/-! ### CRC-8 (dependency `crc_any`, `CRC::crc8()`)

`CRC::crc8()` is the plain CRC-8: polynomial 0x07, initial value 0x00, no
reflection, no final xor, processed most-significant bit first. -/

/-- One shift step of the CRC-8 register (polynomial 0x07, MSB first). -/
def crc8Step (crc : Nat) : Nat :=
  if 128 ≤ crc % 256 then (((crc % 256) * 2) ^^^ 0x07) % 256 else ((crc % 256) * 2) % 256

/-- Iterate `crc8Step`. -/
def crc8Bits : Nat → Nat → Nat
  | 0, x => x
  | n + 1, x => crc8Bits n (crc8Step x)

/-- Feed one byte into the CRC-8 register. -/
def crc8Byte (crc b : Nat) : Nat := crc8Bits 8 ((crc ^^^ b) % 256)

/-- Feed a byte sequence into the CRC-8 register (`CRC::digest`). -/
def crc8Update (crc : Nat) (bs : List Nat) : Nat := bs.foldl crc8Byte crc

/-! ### base64 (dependency `base64`, config `URL_SAFE_NO_PAD`) -/

/-- The URL-safe base64 alphabet: `-` and `_` in positions 62 and 63. -/
def B64_ALPHABET : List Char :=
  "ABCDEFGHIJKLMNOPQRSTUVWXYZabcdefghijklmnopqrstuvwxyz0123456789-_".toList

/-- Character for a sextet (all encode inputs are below 64). -/
def b64Char (n : Nat) : Char := B64_ALPHABET.getD n 'A'

/-- Position of a character in the URL-safe alphabet, `none` when absent. -/
def b64Index (c : Char) : Option Nat :=
  if c ∈ B64_ALPHABET then some (B64_ALPHABET.indexOf c) else none

/-- Big-endian regrouping of bytes into sextets, including the short final
group produced by a 1- or 2-byte tail (no padding). -/
def b64Sextets : List Nat → List Nat
  | [] => []
  | [b1] => [b1 / 4, (b1 % 4) * 16]
  | [b1, b2] => [b1 / 4, (b1 % 4) * 16 + b2 / 16, (b2 % 16) * 4]
  | b1 :: b2 :: b3 :: rest =>
    b1 / 4 :: ((b1 % 4) * 16 + b2 / 16) :: ((b2 % 16) * 4 + b3 / 64) :: (b3 % 64)
      :: b64Sextets rest

/-- `base64::encode_config` with `URL_SAFE_NO_PAD`. -/
def b64EncodeConfig (bs : List Nat) : List Char := (b64Sextets bs).map b64Char

/-- Decoding errors of the `base64` crate. -/
inductive DecodeError where
  | invalidByte (offset : Nat) (byte : Nat)
  | invalidLength
  | invalidLastSymbol (offset : Nat) (byte : Nat)
deriving DecidableEq

/-- Map every character to its sextet value, reporting the first character
outside the alphabet together with its offset. -/
def b64Values : List Char → Nat → Except DecodeError (List Nat)
  | [], _ => Except.ok []
  | c :: cs, i =>
    match b64Index c with
    | none => Except.error (DecodeError.invalidByte i c.toNat)
    | some v =>
      match b64Values cs (i + 1) with
      | Except.error e => Except.error e
      | Except.ok vs => Except.ok (v :: vs)

/-- Big-endian regrouping of sextets into bytes; a trailing group of two
sextets yields one byte, of three sextets two bytes (the group lengths are
guaranteed by the length check in `b64DecodeConfig`). -/
def b64Bytes : List Nat → List Nat
  | [] => []
  | [_] => []
  | [s1, s2] => [s1 * 4 + s2 / 16]
  | [s1, s2, s3] => [s1 * 4 + s2 / 16, (s2 % 16) * 16 + s3 / 4]
  | s1 :: s2 :: s3 :: s4 :: rest =>
    (s1 * 4 + s2 / 16) :: ((s2 % 16) * 16 + s3 / 4) :: ((s3 % 4) * 64 + s4)
      :: b64Bytes rest

/-- The no-padding decoder rejects a final symbol that carries bits beyond
the encoded bytes (`DecodeError::InvalidLastSymbol`). -/
def b64TrailingOk (sx : List Nat) : Bool :=
  match sx.length % 4, sx.getLast? with
  | 2, some v => v % 16 == 0
  | 3, some v => v % 4 == 0
  | _, _ => true

/-- `base64::decode_config` with `URL_SAFE_NO_PAD`: any character outside
the alphabet fails with `InvalidByte`, a length of 1 mod 4 fails with
`InvalidLength`, nonzero trailing bits fail with `InvalidLastSymbol`. -/
def b64DecodeConfig (s : List Char) : Except DecodeError (List Nat) :=
  match b64Values s 0 with
  | Except.error e => Except.error e
  | Except.ok sx =>
    if s.length % 4 == 1 then Except.error DecodeError.invalidLength
    else if b64TrailingOk sx then Except.ok (b64Bytes sx)
    else Except.error
      (DecodeError.invalidLastSymbol (s.length - 1) ((sx.getLast?).getD 0))

/-! ### The `TaggedBase64` entity and its operations -/

/-- The tag string and the binary data (`struct TaggedBase64`). -/
structure TaggedBase64 where
  tag : List Char
  value : List Nat
  checksum : Nat
deriving DecidableEq

/-- `enum TB64Error`. -/
inductive TB64Error where
  | InvalidTag
  | InvalidByte (offset : Nat) (byte : Nat)
  | InvalidLength
  | InvalidChecksum
deriving DecidableEq

/-- `TB64_DELIM`: separator between the tag and the base64 value. -/
def TB64_DELIM : Char := '~'

namespace TaggedBase64

/-- `TaggedBase64::calc_checksum`: one running CRC-8 register digests the
tag's UTF-8 bytes, then the value bytes; the low 8 bits are the result. -/
def calc_checksum (tag : List Char) (value : List Nat) : Nat :=
  crc8Update (crc8Update 0 (utf8Encode tag)) value

/-- `TaggedBase64::is_safe_base64_ascii`: character ranges are compared by
code point, exactly as Rust's `RangeInclusive::<char>::contains`. -/
def is_safe_base64_ascii (c : Char) : Bool :=
  (97 ≤ c.toNat && c.toNat ≤ 122)
    || (65 ≤ c.toNat && c.toNat ≤ 90)
    || (48 ≤ c.toNat && c.toNat ≤ 57)
    || (c.toNat == 45)
    || (c.toNat == 95)

/-- `TaggedBase64::is_safe_base64_tag`: skip UTF-8 bytes (each read back as
a char, Rust's `*b as char`) while they are safe; the tag is safe when
nothing remains. -/
def is_safe_base64_tag (tag : List Char) : Bool :=
  ((utf8Encode tag).dropWhile (fun b => is_safe_base64_ascii (Char.ofNat b))).isEmpty

/-- `TaggedBase64::new`. -/
def new (tag : List Char) (value : List Nat) : Except TB64Error TaggedBase64 :=
  if is_safe_base64_tag tag then
    Except.ok { tag := tag, value := value, checksum := calc_checksum tag value }
  else Except.error TB64Error.InvalidTag

/-- Outcome of `TaggedBase64::set_tag`: whether the `assert!` fired, and the
state of the object when control leaves the call (the assertion fires before
any field is written, so on failure the state is the original one). -/
structure SetTagResult where
  assertFailed : Bool
  state : TaggedBase64
deriving DecidableEq

/-- `TaggedBase64::set_tag`: asserts tag validity, then stores the new tag.
The stored checksum is not recomputed. -/
def set_tag (x : TaggedBase64) (tag : List Char) : SetTagResult :=
  if is_safe_base64_tag tag then ⟨false, { x with tag := tag }⟩
  else ⟨true, x⟩

/-- `TaggedBase64::set_value`: stores the new value.  The stored checksum is
not recomputed. -/
def set_value (x : TaggedBase64) (value : List Nat) : TaggedBase64 :=
  { x with value := value }

/-- `TaggedBase64::encode_raw`. -/
def encode_raw (input : List Nat) : List Char := b64EncodeConfig input

/-- `TaggedBase64::decode_raw`. -/
def decode_raw (value : List Char) : Except DecodeError (List Nat) :=
  b64DecodeConfig value

end TaggedBase64

/-- Free function `to_string`: clones the value, pushes the checksum of the
original (tag, value) onto the clone, and emits tag, delimiter and the
base64 encoding of the extended value. -/
def to_string (tb64 : TaggedBase64) : List Char :=
  let value := tb64.value ++ [TaggedBase64.calc_checksum tb64.tag tb64.value]
  tb64.tag ++ [TB64_DELIM] ++ TaggedBase64.encode_raw value

/-- `impl From<&TaggedBase64> for String` (same body as `to_string`). -/
def string_from (tb64 : TaggedBase64) : List Char :=
  let value := tb64.value ++ [TaggedBase64.calc_checksum tb64.tag tb64.value]
  tb64.tag ++ [TB64_DELIM] ++ TaggedBase64.encode_raw value

/-- `impl fmt::Display for TaggedBase64` (same body as `to_string`). -/
def display_fmt (tb64 : TaggedBase64) : List Char :=
  let value := tb64.value ++ [TaggedBase64.calc_checksum tb64.tag tb64.value]
  tb64.tag ++ [TB64_DELIM] ++ TaggedBase64.encode_raw value

/-- The outcomes of `JsTaggedBase64::tagged_base64_from`: the `Err` returns
of the Rust function, plus `indexOutOfBounds`, which models the panic of
`bytes[0]` on an empty vector (a crash, not an `Err` return). -/
inductive ParseErr where
  | missingDelim
  | invalidTag
  | decodeFailed (e : DecodeError)
  | indexOutOfBounds
  | invalidChecksum
deriving DecidableEq

namespace JsTaggedBase64

/-- `JsTaggedBase64::tagged_base64_from`: find the first delimiter, split
there, validate the tag, drop the delimiter, base64-decode the rest, take
`bytes[0]` as the checksum (panicking when `bytes` is empty) and compare it
with the checksum recomputed over the remaining bytes. -/
def tagged_base64_from (tb64 : List Char) : Except ParseErr TaggedBase64 :=
  match tb64.findIdx? (fun c => c = TB64_DELIM) with
  | none => Except.error ParseErr.missingDelim
  | some delim_pos =>
    if ¬ TaggedBase64.is_safe_base64_tag (tb64.take delim_pos) then
      Except.error ParseErr.invalidTag
    else
      match TaggedBase64.decode_raw (tb64.drop delim_pos).tail with
      | Except.error e => Except.error (ParseErr.decodeFailed e)
      | Except.ok [] => Except.error ParseErr.indexOutOfBounds
      | Except.ok (cs :: rest) =>
        if cs = TaggedBase64.calc_checksum (tb64.take delim_pos) rest then
          Except.ok { tag := tb64.take delim_pos, value := rest, checksum := cs }
        else Except.error ParseErr.invalidChecksum

/-- `JsTaggedBase64::make_tagged_base64`: same checksum handling as
`tagged_base64_from`, from a tag and an already-split base64 string. -/
def make_tagged_base64 (tag : List Char) (value : List Char) :
    Except ParseErr TaggedBase64 :=
  if ¬ TaggedBase64.is_safe_base64_tag tag then Except.error ParseErr.invalidTag
  else
    match TaggedBase64.decode_raw value with
    | Except.error e => Except.error (ParseErr.decodeFailed e)
    | Except.ok [] => Except.error ParseErr.indexOutOfBounds
    | Except.ok (cs :: rest) =>
      if cs = TaggedBase64.calc_checksum tag rest then
        Except.ok { tag := tag, value := rest, checksum := cs }
      else Except.error ParseErr.invalidChecksum

end JsTaggedBase64

set_option maxRecDepth 100000 in
/-- Sanity check of the CRC-8 model: the catalogue check value of CRC-8
(poly 0x07, init 0, no reflect, no xorout) on ASCII "123456789" is 0xF4. -/
theorem crc8_check_value : crc8Update 0 (utf8Encode "123456789".toList) = 0xF4 := by
  decide

/-! ### Helper lemmas -/

/-- A scalar value is below 0x110000. -/
theorem char_toNat_lt (c : Char) : c.toNat < 1114112 := by
  have h := c.valid
  have e : c.toNat = c.val.toNat := rfl
  rcases h with h | ⟨h1, h2⟩
  · omega
  · omega

/-- `Char.ofNat` of a valid scalar value has that value. -/
theorem char_toNat_ofNat (n : Nat) (h : n.isValidChar) : (Char.ofNat n).toNat = n := by
  unfold Char.ofNat
  rw [dif_pos h]
  rfl

/-- An ASCII character is UTF-8-encoded as its own single byte. -/
theorem utf8EncodeChar_small (c : Char) (h : c.toNat < 128) :
    utf8EncodeChar c = [c.toNat] := by
  simp [utf8EncodeChar, h]

/-- A non-ASCII character's UTF-8 encoding starts with a byte in [128, 256). -/
theorem utf8EncodeChar_large (c : Char) (h : 128 ≤ c.toNat) :
    ∃ b l, utf8EncodeChar c = b :: l ∧ 128 ≤ b ∧ b < 256 := by
  have hlt := char_toNat_lt c
  unfold utf8EncodeChar
  by_cases h1 : c.toNat < 0x80
  · omega
  · rw [if_neg h1]
    by_cases h2 : c.toNat < 0x800
    · rw [if_pos h2]
      exact ⟨_, _, rfl, by omega, by omega⟩
    · rw [if_neg h2]
      by_cases h3 : c.toNat < 0x10000
      · rw [if_pos h3]
        exact ⟨_, _, rfl, by omega, by omega⟩
      · rw [if_neg h3]
        exact ⟨_, _, rfl, by omega, by omega⟩

/-- Characters with scalar value at least 128 are not tag-safe. -/
theorem ascii_unsafe_of_ge_128 (c : Char) (h : 128 ≤ c.toNat) :
    TaggedBase64.is_safe_base64_ascii c = false := by
  simp only [TaggedBase64.is_safe_base64_ascii, Bool.or_eq_false_iff,
    Bool.and_eq_false_iff, decide_eq_false_iff_not, beq_eq_false_iff_ne, ne_eq]
  omega

/-- Per-character bridge: all UTF-8 bytes of a character pass the byte-level
safety test exactly when the character itself passes the char-level one. -/
theorem utf8Char_bytes_safe_iff (c : Char) :
    (∀ b ∈ utf8EncodeChar c,
        TaggedBase64.is_safe_base64_ascii (Char.ofNat b) = true)
      ↔ TaggedBase64.is_safe_base64_ascii c = true := by
  by_cases h : c.toNat < 128
  · rw [utf8EncodeChar_small c h]
    simp [Char.ofNat_toNat]
  · push_neg at h
    obtain ⟨b, l, he, hb1, hb2⟩ := utf8EncodeChar_large c h
    rw [he]
    constructor
    · intro hall
      have h1 := hall b (by simp)
      have h2 : (Char.ofNat b).toNat = b := char_toNat_ofNat b (Or.inl (by omega))
      have h3 := ascii_unsafe_of_ge_128 (Char.ofNat b) (by omega)
      rw [h1] at h3
      cases h3
    · intro hc
      have h3 := ascii_unsafe_of_ge_128 c h
      rw [hc] at h3
      cases h3

/-- All UTF-8 bytes of a string pass the byte-level safety test exactly when
all its characters pass the char-level one. -/
theorem utf8_all_safe_iff (t : List Char) :
    (∀ b ∈ utf8Encode t,
        TaggedBase64.is_safe_base64_ascii (Char.ofNat b) = true)
      ↔ ∀ c ∈ t, TaggedBase64.is_safe_base64_ascii c = true := by
  induction t with
  | nil => simp [utf8Encode]
  | cons c cs ih =>
    simp only [utf8Encode, List.forall_mem_append, List.forall_mem_cons]
    rw [ih, utf8Char_bytes_safe_iff]

/-- `is_safe_base64_tag` accepts exactly the strings all of whose characters
pass `is_safe_base64_ascii`. -/
theorem safe_tag_iff_all_ascii (t : List Char) :
    TaggedBase64.is_safe_base64_tag t = true
      ↔ ∀ c ∈ t, TaggedBase64.is_safe_base64_ascii c = true := by
  unfold TaggedBase64.is_safe_base64_tag
  rw [List.isEmpty_iff, List.dropWhile_eq_nil_iff]
  exact utf8_all_safe_iff t

/-- `is_safe_base64_ascii` accepts exactly the 64 characters of the URL-safe
base64 alphabet. -/
theorem ascii_iff_mem_alphabet (c : Char) :
    TaggedBase64.is_safe_base64_ascii c = true ↔ c ∈ B64_ALPHABET := by
  constructor
  · intro h
    rw [← Char.ofNat_toNat c]
    simp only [TaggedBase64.is_safe_base64_ascii, Bool.or_eq_true, Bool.and_eq_true,
      decide_eq_true_eq, beq_iff_eq] at h
    generalize c.toNat = n at h ⊢
    have hub : n < 123 := by omega
    have hlb : 45 ≤ n := by omega
    interval_cases n <;> first | decide | omega
  · intro h
    fin_cases h <;> decide

/-- `is_safe_base64_tag` accepts exactly the strings drawn from the URL-safe
base64 alphabet. -/
theorem safe_tag_iff_mem (t : List Char) :
    TaggedBase64.is_safe_base64_tag t = true ↔ ∀ c ∈ t, c ∈ B64_ALPHABET := by
  rw [safe_tag_iff_all_ascii]
  exact ⟨fun h c hc => (ascii_iff_mem_alphabet c).1 (h c hc),
         fun h c hc => (ascii_iff_mem_alphabet c).2 (h c hc)⟩

/-- Inversion of `TaggedBase64::new`: a successful construction carries the
given tag and value together with the computed checksum. -/
theorem new_ok_inv (t : List Char) (p : List Nat) (x : TaggedBase64)
    (h : TaggedBase64.new t p = Except.ok x) :
    x = ⟨t, p, TaggedBase64.calc_checksum t p⟩ := by
  unfold TaggedBase64.new at h
  split at h
  · injection h with h
    exact h.symm
  · exact absurd h (by simp)

/-- Inversion of `tagged_base64_from`: a successful parse carries a checksum
equal to the one recomputed over its tag and value. -/
theorem parse_ok_inv (s : List Char) (y : TaggedBase64)
    (h : JsTaggedBase64.tagged_base64_from s = Except.ok y) :
    y.checksum = TaggedBase64.calc_checksum y.tag y.value := by
  unfold JsTaggedBase64.tagged_base64_from at h
  split at h
  · exact absurd h (by simp)
  · split at h
    · exact absurd h (by simp)
    · split at h
      · exact absurd h (by simp)
      · exact absurd h (by simp)
      · rename_i cs rest heq
        split at h
        · rename_i hcs
          injection h with h
          rw [← h]
          exact hcs
        · exact absurd h (by simp)

/-! ### The claims -/

set_option maxRecDepth 1000000 in
/-- C1: the claimed round-trip `parse(format(construct(tag, bytes)))` fails
on the code: constructing from tag `""` and payload `[0x01]` succeeds with
checksum 7, but parsing the formatted string rejects it with a checksum
error, because `to_string` appends the checksum byte while
`tagged_base64_from` reads the first decoded byte as the checksum. -/
theorem C1_roundtrip_fails_on_code :
    TaggedBase64.new [] [1] = Except.ok ⟨[], [1], 7⟩ ∧
    JsTaggedBase64.tagged_base64_from (to_string ⟨[], [1], 7⟩) =
      Except.error ParseErr.invalidChecksum := by decide

set_option maxRecDepth 1000000 in
/-- C2 counterexample: for the TaggedBase64 with tag `""` and payload
`[0x01]`, the formatted string differs from
tag ++ '~' ++ base64url_nopad(checksum prepended to the payload). -/
theorem C2_checksum_not_prepended :
    to_string ⟨[], [1], 7⟩ ≠
      ([] : List Char) ++ [TB64_DELIM] ++
        TaggedBase64.encode_raw
          (TaggedBase64.calc_checksum [] [1] :: [1]) := by decide

/-- C2 (amended): for every TaggedBase64 with tag t and payload p, the
formatted string equals t, followed by '~', followed by the URL-safe
no-padding base64 encoding of the frame built by APPENDING the checksum
byte to the payload: base64url_nopad(p ++ [checksum_fn(t, p)]). -/
theorem C2_format_appends_checksum (tb64 : TaggedBase64) :
    to_string tb64 =
      tb64.tag ++ [TB64_DELIM] ++
        TaggedBase64.encode_raw
          (tb64.value ++ [TaggedBase64.calc_checksum tb64.tag tb64.value]) := rfl

/-- C3: parsing the one-character string "~" does not fail with
`InvalidLength`; the post-delimiter part decodes to the empty byte sequence
and the code evaluates `bytes[0]` on it, which panics (index out of
bounds). -/
theorem C3_lone_delimiter_panics :
    JsTaggedBase64.tagged_base64_from [TB64_DELIM] =
      Except.error ParseErr.indexOutOfBounds := by decide

set_option maxRecDepth 1000000 in
/-- C4 counterexample: constructing with tag `""` and payload `[]` stores
checksum 0, and `set_value [0x01]` leaves the stored checksum at 0 even
though the checksum over the new (tag, payload) pair is 7. -/
theorem C4_set_value_keeps_stale_checksum :
    TaggedBase64.new [] [] = Except.ok ⟨[], [], 0⟩ ∧
    (TaggedBase64.set_value ⟨[], [], 0⟩ [1]).checksum ≠
      TaggedBase64.calc_checksum
        (TaggedBase64.set_value ⟨[], [], 0⟩ [1]).tag
        (TaggedBase64.set_value ⟨[], [], 0⟩ [1]).value := by decide

/-- C4 (amended): construction and successful parsing establish
checksum = checksum_fn(tag, payload), but `set_value` and `set_tag` do NOT
recompute the stored checksum — both leave it unchanged. -/
theorem C4_checksum_only_set_at_creation (t : List Char) (p q : List Nat)
    (u s : List Char) (x y : TaggedBase64)
    (h1 : TaggedBase64.new t p = Except.ok x)
    (h2 : JsTaggedBase64.tagged_base64_from s = Except.ok y) :
    x.checksum = TaggedBase64.calc_checksum x.tag x.value ∧
    y.checksum = TaggedBase64.calc_checksum y.tag y.value ∧
    (TaggedBase64.set_value x q).checksum = x.checksum ∧
    ((TaggedBase64.set_tag x u).state).checksum = x.checksum := by
  refine ⟨?_, parse_ok_inv s y h2, rfl, ?_⟩
  · rw [new_ok_inv t p x h1]
  · unfold TaggedBase64.set_tag
    split <;> rfl

set_option maxRecDepth 1000000 in
/-- Witness for C4's amended theorem at tag "", payloads [] and [0x01],
new tag "~", and the parseable string "~AA". -/
theorem C4_checksum_only_set_at_creation_witness :
    (⟨[], [], 0⟩ : TaggedBase64).checksum =
      TaggedBase64.calc_checksum (⟨[], [], 0⟩ : TaggedBase64).tag
        (⟨[], [], 0⟩ : TaggedBase64).value ∧
    (⟨[], [], 0⟩ : TaggedBase64).checksum =
      TaggedBase64.calc_checksum (⟨[], [], 0⟩ : TaggedBase64).tag
        (⟨[], [], 0⟩ : TaggedBase64).value ∧
    (TaggedBase64.set_value ⟨[], [], 0⟩ [1]).checksum =
      (⟨[], [], 0⟩ : TaggedBase64).checksum ∧
    ((TaggedBase64.set_tag ⟨[], [], 0⟩ ['~']).state).checksum =
      (⟨[], [], 0⟩ : TaggedBase64).checksum :=
  C4_checksum_only_set_at_creation [] [] [1] ['~'] "~AA".toList
    ⟨[], [], 0⟩ ⟨[], [], 0⟩ (by decide) (by decide)

/-- C5: `set_tag` with a candidate containing a character outside the
URL-safe base64 alphabet rejects the new tag (the `assert!` fires, before
any field is written) and the object keeps its tag, payload and checksum. -/
theorem C5_set_tag_rejects_invalid (x : TaggedBase64) (t : List Char)
    (h : ∃ c ∈ t, c ∉ B64_ALPHABET) :
    (TaggedBase64.set_tag x t).assertFailed = true ∧
    (TaggedBase64.set_tag x t).state = x := by
  obtain ⟨c, hc, hmem⟩ := h
  have hsafe : ¬ TaggedBase64.is_safe_base64_tag t = true := fun hs =>
    hmem ((safe_tag_iff_mem t).1 hs c hc)
  unfold TaggedBase64.set_tag
  rw [if_neg hsafe]
  exact ⟨rfl, rfl⟩

/-- Witness for C5 at the candidate tag "~". -/
theorem C5_set_tag_rejects_invalid_witness :
    (∃ c ∈ ['~'], c ∉ B64_ALPHABET) ∧
    (TaggedBase64.set_tag ⟨[], [], 0⟩ ['~']).assertFailed = true ∧
    (TaggedBase64.set_tag ⟨[], [], 0⟩ ['~']).state = ⟨[], [], 0⟩ :=
  ⟨by decide, C5_set_tag_rejects_invalid ⟨[], [], 0⟩ ['~'] (by decide)⟩

/-- C6: `is_safe_base64_tag` returns true exactly when every character of
the string belongs to the URL-safe base64 alphabet (A-Z, a-z, 0-9, '-',
'_'); in particular it returns true for the empty string. -/
theorem C6_tag_validator_correct (s : List Char) :
    (TaggedBase64.is_safe_base64_tag s = true ↔ ∀ c ∈ s, c ∈ B64_ALPHABET) ∧
    TaggedBase64.is_safe_base64_tag [] = true :=
  ⟨safe_tag_iff_mem s, by decide⟩

/-- C7: parsing any string that contains no '~' fails with the
missing-delimiter error. -/
theorem C7_missing_delimiter (s : List Char) (h : TB64_DELIM ∉ s) :
    JsTaggedBase64.tagged_base64_from s = Except.error ParseErr.missingDelim := by
  unfold JsTaggedBase64.tagged_base64_from
  have hf : s.findIdx? (fun c => c = TB64_DELIM) = none := by
    rw [List.findIdx?_eq_none_iff]
    intro x hx
    simp only [decide_eq_false_iff_not]
    exact fun he => h (he ▸ hx)
  rw [hf]

/-- Witness for C7 at the string "TXAAAA". -/
theorem C7_missing_delimiter_witness :
    TB64_DELIM ∉ "TXAAAA".toList ∧
    JsTaggedBase64.tagged_base64_from "TXAAAA".toList =
      Except.error ParseErr.missingDelim :=
  ⟨by decide, C7_missing_delimiter "TXAAAA".toList (by decide)⟩

/-- C8: when the delimiter is present at position i, the tag before it is
valid, and the base64 part decodes to a non-empty byte sequence cs :: bs,
parsing returns a TaggedBase64 exactly when cs equals the checksum
recomputed over (tag, bs), and fails with the checksum error otherwise;
no other outcome is possible. -/
theorem C8_parse_checksum_gate (s : List Char) (i : Nat) (cs : Nat)
    (bs : List Nat)
    (hi : s.findIdx? (fun c => c = TB64_DELIM) = some i)
    (htag : TaggedBase64.is_safe_base64_tag (s.take i) = true)
    (hdec : TaggedBase64.decode_raw (s.drop i).tail = Except.ok (cs :: bs)) :
    JsTaggedBase64.tagged_base64_from s =
      if cs = TaggedBase64.calc_checksum (s.take i) bs then
        Except.ok ⟨s.take i, bs, cs⟩
      else Except.error ParseErr.invalidChecksum := by
  unfold JsTaggedBase64.tagged_base64_from
  rw [hi]
  simp only [htag, not_true_eq_false, if_false, hdec]

set_option maxRecDepth 1000000 in
/-- Witness for C8 at the string "~AA" (empty tag, empty payload,
checksum byte 0). -/
theorem C8_parse_checksum_gate_witness :
    "~AA".toList.findIdx? (fun c => c = TB64_DELIM) = some 0 ∧
    TaggedBase64.is_safe_base64_tag ("~AA".toList.take 0) = true ∧
    TaggedBase64.decode_raw ("~AA".toList.drop 0).tail = Except.ok (0 :: []) ∧
    JsTaggedBase64.tagged_base64_from "~AA".toList =
      if 0 = TaggedBase64.calc_checksum ("~AA".toList.take 0) [] then
        Except.ok ⟨"~AA".toList.take 0, [], 0⟩
      else Except.error ParseErr.invalidChecksum :=
  ⟨by decide, by decide, by decide,
    C8_parse_checksum_gate "~AA".toList 0 0 [] (by decide) (by decide) (by decide)⟩

/-- C9: `to_string` depends only on the tag and value fields; two values
with equal tag and equal value but arbitrary stored checksums format to the
same string. -/
theorem C9_format_ignores_stored_checksum (t1 t2 : TaggedBase64)
    (h1 : t1.tag = t2.tag) (h2 : t1.value = t2.value) :
    to_string t1 = to_string t2 := by
  unfold to_string
  rw [h1, h2]

/-- Witness for C9 at two values differing only in the stored checksum. -/
theorem C9_format_ignores_stored_checksum_witness :
    (⟨[], [], 0⟩ : TaggedBase64).tag = (⟨[], [], 99⟩ : TaggedBase64).tag ∧
    (⟨[], [], 0⟩ : TaggedBase64).value = (⟨[], [], 99⟩ : TaggedBase64).value ∧
    to_string ⟨[], [], 0⟩ = to_string ⟨[], [], 99⟩ :=
  ⟨rfl, rfl, C9_format_ignores_stored_checksum ⟨[], [], 0⟩ ⟨[], [], 99⟩ rfl rfl⟩

/-- C10: the three formatting paths — `to_string`, `String::from` and the
`Display` implementation — produce identical output on every value. -/
theorem C10_format_paths_agree (tb64 : TaggedBase64) :
    string_from tb64 = to_string tb64 ∧ display_fmt tb64 = to_string tb64 :=
  ⟨rfl, rfl⟩
